import Mathlib

/-!
Shallow embedding of the real-time metrics subsystem of the
Vamos Smart Fitness & Health Dashboard.

The embedding covers:
* `Dashboard.cleanup_old_data` (app.py) — the manual purge;
* `Dashboard.get_user_real_time_metrics`, `Dashboard.generate_user_demo_metrics`
  and `Dashboard.get_latest_user_metrics` (app.py) — the per-user query layer
  with its demo fallback;
* `Dashboard.get_data_stats` (app.py) — store introspection;
* `Dashboard.setup_data_retention` (app.py) — the TTL-index install;
* `_generate_realistic_value` and the inter-tick pause of
  `start_fast_data_generation` (generate_sample_data.py).

The MongoDB collection `real_time_metrics` is modelled as a list of records;
a store operation that may raise is modelled as an `Except String` value.
Randomness (`random.randint`, `random.choice`) is modelled by passing the
drawn numbers in explicitly, so theorems quantify over all draws.
Timestamps are integers counted in seconds; `timedelta(days=d)` is
`d * 86400` seconds.
-/

namespace Vamos

/-- One document of the `real_time_metrics` collection, with exactly the
fields the code writes (app.py `generate_user_demo_metrics`,
generate_sample_data.py) plus `mongoId`, the `_id` value MongoDB adds to
every stored document: documents fetched with `find()` carry `some`
object id, while the frames built in-process by the demo supplier have
no `_id` column, modelled as `none` (the literal's default).  There is
no `source` field in the code. -/
structure Record where
  user_id : String
  metric_type : String
  value : Nat
  timestamp : Int
  device_id : String
  session_id : String
  mongoId : Option String := none
deriving DecidableEq, Repr

/-- Python's `random.randint(lo, hi)` (both ends inclusive), with the
drawn entropy `r` passed explicitly: the result is `lo + r % (hi + 1 - lo)`.
Meaningful whenever `lo ≤ hi`, which holds at every call site below. -/
def randint (lo hi r : Nat) : Nat :=
  lo + r % (hi + 1 - lo)

/-- The closed metric enumeration used by app.py `get_latest_user_metrics`
and by both generators. -/
def metricTypes : List String :=
  ["heart_rate", "steps", "calories_burned", "active_minutes"]

/-- Zero-padding used by the Python format `{:03d}` in device identifiers. -/
def padNum (width n : Nat) : String :=
  let s := toString n
  String.mk (List.replicate (width - s.length) '0') ++ s

/-- app.py `Dashboard.generate_user_demo_metrics`: twenty synthesized
records for `user_id`, timestamps `now - 3*i` seconds for `i = 0..19`.
`g i k` is the `k`-th random draw of iteration `i`:
draw 0 picks the metric type among the four, draw 1 picks the branch of
`random.choice(['heart_rate', 'steps']) == 'heart_rate'`, draws 2 and 3
feed `randint(60, 180)` and `randint(0, 50)`, draws 4 and 5 feed the
device and session numbers.  No field tags the record as synthesized. -/
def generateUserDemoMetrics (uid : String) (now : Int) (g : Nat → Nat → Nat) :
    List Record :=
  (List.range 20).map fun i =>
    { user_id := uid
      metric_type := metricTypes.getD (g i 0 % 4) "heart_rate"
      value :=
        if ["heart_rate", "steps"].getD (g i 1 % 2) "" = "heart_rate" then
          randint 60 180 (g i 2)
        else
          randint 0 50 (g i 3)
      timestamp := now - 3 * (i : Int)
      device_id := "device-" ++ padNum 3 (randint 1 10 (g i 4))
      session_id := "session-" ++ toString (randint 1000 9999 (g i 5)) }

/-- Descending-timestamp order used by the store query
`find({...}).sort("timestamp", -1)`. -/
def tsDesc (a b : Record) : Prop :=
  b.timestamp ≤ a.timestamp

instance : DecidableRel tsDesc := fun a b =>
  inferInstanceAs (Decidable (b.timestamp ≤ a.timestamp))

instance : IsTotal Record tsDesc :=
  ⟨fun a b => le_total b.timestamp a.timestamp⟩

instance : IsTrans Record tsDesc :=
  ⟨fun _ _ _ h1 h2 => le_trans h2 h1⟩

/-- The store query of app.py `get_user_real_time_metrics`:
`real_time_metrics.find({"user_id": user_id}).sort("timestamp", -1).limit(50)`
— the user's records, sorted by timestamp descending, truncated to 50. -/
def queryRecentForUser (db : List Record) (uid : String) : List Record :=
  ((db.filter fun r => decide (r.user_id = uid)).insertionSort tsDesc).take 50

/-- app.py `Dashboard.get_user_real_time_metrics`.  `store` is the result
of the MongoDB round trip: `Except.error` models an exception raised by
the store call (caught by the code, which then falls back), `Except.ok db`
a reachable store holding `db`.  In demo mode, on an exception, or when
the user's query result is empty, the demo supplier's output is returned. -/
def getUserRealTimeMetrics (demoMode : Bool) (uid : String) (now : Int)
    (g : Nat → Nat → Nat) (store : Except String (List Record)) : List Record :=
  if demoMode then generateUserDemoMetrics uid now g
  else
    match store with
    | Except.error _ => generateUserDemoMetrics uid now g
    | Except.ok db =>
      let user_metrics := queryRecentForUser db uid
      if user_metrics.isEmpty then generateUserDemoMetrics uid now g
      else user_metrics

/-- app.py `Dashboard.get_latest_user_metrics`: for each of the four metric
types, the first row of the (already timestamp-descending) frame restricted
to that type; a type with no rows is omitted from the returned dict, as is
every type outside the closed enumeration. -/
def getLatestUserMetrics (df : List Record) (m : String) :
    Option (Nat × Int) :=
  if df.isEmpty then none
  else if m ∈ metricTypes then
    ((df.filter fun r => decide (r.metric_type = m)).head?).map
      fun r => (r.value, r.timestamp)
  else none

/-- The status label of app.py `show_live_metrics`: a metric type present
in `latest_metrics` is displayed with status `"Live"`; only a type absent
from the fetched result falls to the default branch, which synthesizes a
placeholder value labeled `"Simulated"`.  No per-record tag is read. -/
def metricStatus (df : List Record) (m : String) : String :=
  if (getLatestUserMetrics df m).isSome then "Live" else "Simulated"

/-- app.py `Dashboard.cleanup_old_data`.  Returns the store after the call
together with the reported deleted count.  In demo mode nothing is touched
and 0 is returned; if the store round trip raises (`Except.error`) the
exception is caught and 0 is returned; otherwise the cutoff is
`now - days` (as `days * 86400` seconds), the matching records are counted,
and if any match they are deleted via
`delete_many({"timestamp": {"$lt": cutoff}})` with the deleted count
returned.  No validation is performed on `days`. -/
def cleanupOldData (demoMode : Bool) (now : Int)
    (store : Except String (List Record)) (days : Int) :
    Except String (List Record) × Nat :=
  if demoMode then (store, 0)
  else
    match store with
    | Except.error e => (Except.error e, 0)
    | Except.ok db =>
      let cutoff := now - days * 86400
      let count_before := (db.filter fun r => decide (r.timestamp < cutoff)).length
      if count_before > 0 then
        (Except.ok (db.filter fun r => !decide (r.timestamp < cutoff)), count_before)
      else
        (Except.ok db, 0)

/-- Timestamp of the oldest record:
`find_one({}, sort=[("timestamp", 1)])`, `None` on an empty collection. -/
def oldestTimestamp (db : List Record) : Option Int :=
  (db.map fun r => r.timestamp).min?

/-- app.py `Dashboard.get_data_stats`: total record count and oldest
timestamp; `(0, none)` in demo mode or when the store call raises. -/
def getDataStats (demoMode : Bool) (store : Except String (List Record)) :
    Nat × Option Int :=
  if demoMode then (0, none)
  else
    match store with
    | Except.error _ => (0, none)
    | Except.ok db => (db.length, oldestTimestamp db)

/-- The TTL-index sub-state of the `real_time_metrics` collection:
`ttl` is the `expireAfterSeconds` option of the index on `timestamp`,
if that index exists. -/
structure MongoState where
  ttl : Option Nat
  records : List Record
deriving DecidableEq, Repr

/-- MongoDB's `create_index("timestamp", expireAfterSeconds=secs)` on the
`real_time_metrics` collection: installs the index when absent; re-creating
it with identical options is a documented no-op; differing options raise
an `IndexOptionsConflict` error. -/
def createTTLIndex (s : MongoState) (secs : Nat) : Except String MongoState :=
  match s.ttl with
  | none => Except.ok { s with ttl := some secs }
  | some w => if w = secs then Except.ok s else Except.error "IndexOptionsConflict"

/-- app.py `Dashboard.setup_data_retention`: outside demo mode, create the
TTL index with a hardcoded 7-day window (`7 * 24 * 60 * 60` seconds),
catching any exception (the store state is then left as it was). -/
def setupDataRetention (demoMode : Bool) (s : MongoState) : MongoState :=
  if demoMode then s
  else
    match createTTLIndex s (7 * 24 * 60 * 60) with
    | Except.ok s1 => s1
    | Except.error _ => s

/-- The inter-tick pause of generate_sample_data.py
`start_fast_data_generation`:
`time.sleep(max(0, 1.0 - (time.time() - batch_start)))`, where `elapsed`
is the batch round-trip duration and the tick interval is 1 second. -/
def tickPause (elapsed : ℚ) : ℚ :=
  max 0 (1 - elapsed)

/-- Helper for `pySplit`: walks the character list, cutting at each
separator; `acc` holds the (reversed) characters of the current piece. -/
def splitCharAux (sep : Char) : List Char → List Char → List String
  | [], acc => [String.mk acc.reverse]
  | c :: cs, acc =>
    if c = sep then String.mk acc.reverse :: splitCharAux sep cs []
    else splitCharAux sep cs (c :: acc)

/-- Python's `s.split(sep)` for a one-character separator: consecutive
separators produce empty pieces and `"".split(sep) == ['']`. -/
def pySplit (s : String) (sep : Char) : List String :=
  splitCharAux sep s.toList []

/-- The characters `int()` strips from both ends of its argument: the six
ASCII whitespace characters (CPython rejects `\x1c`–`\x1f` here). -/
def isPySpace (c : Char) : Bool :=
  c = ' ' || c = '\t' || c = '\n' || c = '\r' || c = '\x0b' || c = '\x0c'

/-- Digit run with underscore grouping, as `int()` accepts after the
optional sign: underscores must sit between digits — never leading (the
initial `prevU` is `true`), trailing, or doubled.  `acc` is the value so
far. -/
def parseDigitsGroupedAux : List Char → Nat → Bool → Option Nat
  | [], acc, prevU => if prevU then none else some acc
  | c :: rest, acc, prevU =>
    if c.isDigit then parseDigitsGroupedAux rest (10 * acc + (c.toNat - 48)) false
    else if c = '_' then
      if prevU then none else parseDigitsGroupedAux rest acc true
    else none

/-- Python's `int(s)`: strip ASCII whitespace from both ends, allow one
optional `'+'` sign, then require a digit run with underscore grouping;
anything else raises `ValueError` (modelled as `none`).  This is exact
for ASCII arguments without a minus sign — sufficient here, because every
piece of `pySplit s '-'` contains no `'-'` (`pySplit_no_sep` below), and
the theorems about the raising path restrict to ASCII segments since
`int()` additionally accepts non-ASCII decimal digits. -/
def pyParseInt (s : String) : Option Nat :=
  let l1 := s.toList.dropWhile isPySpace
  let l2 := (l1.reverse.dropWhile isPySpace).reverse
  match l2 with
  | '+' :: rest => parseDigitsGroupedAux rest 0 true
  | other => parseDigitsGroupedAux other 0 true

/-- generate_sample_data.py `_generate_realistic_value`.
`int(user_id.split('-')[1])` raises `IndexError` when there is no `'-'`
and `ValueError` when the segment after the first `'-'` is not accepted
by `int()` (see `pyParseInt`); otherwise
`base = (user_num % 40) + 60` and the value is drawn
from the per-metric range, with 0 for any metric type outside the
enumeration.  `//` is integer division.  `r` is the random draw. -/
def generateRealisticValue (user_id metric_type : String) (r : Nat) :
    Except String Nat :=
  match (pySplit user_id '-').get? 1 with
  | none => Except.error "IndexError"
  | some seg =>
    match pyParseInt seg with
    | none => Except.error "ValueError"
    | some user_num =>
      let base := user_num % 40 + 60
      if metric_type = "heart_rate" then
        Except.ok (randint base (base + 20) r)
      else if metric_type = "steps" then
        Except.ok (randint (max 0 (base - 40)) base r)
      else if metric_type = "calories_burned" then
        Except.ok (randint (max 1 (base / 15)) (base / 8) r)
      else if metric_type = "active_minutes" then
        Except.ok (randint (max 1 (base / 30)) (base / 20) r)
      else
        Except.ok 0

/-- Concrete store for the purge tests: records at `now - 10d`,
`now - 6d` and `now - 1h` (with `now = 0`), the case named by the spec. -/
def purgeDb : List Record :=
  [{ user_id := "user-0001", metric_type := "heart_rate", value := 70,
     timestamp := -864000, device_id := "device-001", session_id := "session-1000" },
   { user_id := "user-0001", metric_type := "steps", value := 40,
     timestamp := -518400, device_id := "device-002", session_id := "session-1001" },
   { user_id := "user-0002", metric_type := "heart_rate", value := 80,
     timestamp := -3600, device_id := "device-003", session_id := "session-1002" }]

/-- A single record one day old, used for the non-positive-window purge. -/
def oneDayOldRec : Record :=
  { user_id := "user-0001", metric_type := "heart_rate", value := 70,
    timestamp := -86400, device_id := "device-001", session_id := "session-1000" }

/-- Concrete store for the latest-by-type test: three `heart_rate`
records for `user-0001` at timestamps 100 < 200 < 300, stored out of
order, plus a `steps` record and another user's record. -/
def sampleDb : List Record :=
  [{ user_id := "user-0001", metric_type := "heart_rate", value := 70,
     timestamp := 100, device_id := "device-001", session_id := "session-1000" },
   { user_id := "user-0001", metric_type := "heart_rate", value := 72,
     timestamp := 300, device_id := "device-001", session_id := "session-1001" },
   { user_id := "user-0001", metric_type := "heart_rate", value := 68,
     timestamp := 200, device_id := "device-002", session_id := "session-1002" },
   { user_id := "user-0001", metric_type := "steps", value := 40,
     timestamp := 400, device_id := "device-003", session_id := "session-1003" },
   { user_id := "user-0002", metric_type := "heart_rate", value := 99,
     timestamp := 500, device_id := "device-004", session_id := "session-1004" }]

lemma randint_bounds (lo hi r : Nat) (h : lo ≤ hi) :
    lo ≤ randint lo hi r ∧ randint lo hi r ≤ hi := by
  unfold randint
  have hlt : r % (hi + 1 - lo) < hi + 1 - lo := Nat.mod_lt r (by omega)
  omega

/-- On a reachable store, `cleanup_old_data` keeps exactly the records at
or after the cutoff and reports the number of strictly older ones, in
both the some-matches and the no-matches branch. -/
lemma cleanupOldData_ok_eq (now days : Int) (db : List Record) :
    cleanupOldData false now (Except.ok db) days =
      (Except.ok (db.filter fun r => decide (now - days * 86400 ≤ r.timestamp)),
       (db.filter fun r => decide (r.timestamp < now - days * 86400)).length) := by
  have hfilt :
      (db.filter fun r => !decide (r.timestamp < now - days * 86400)) =
        db.filter fun r => decide (now - days * 86400 ≤ r.timestamp) := by
    apply List.filter_congr
    intro x _
    by_cases hx : x.timestamp < now - days * 86400
    · simp [hx, not_le.mpr hx]
    · simp [hx, not_lt.mp hx]
  by_cases hc : (db.filter fun r => decide (r.timestamp < now - days * 86400)).length > 0
  · simp only [cleanupOldData, if_pos hc, Bool.false_eq_true, if_false, hfilt]
  · have h0 : (db.filter fun r => decide (r.timestamp < now - days * 86400)).length = 0 := by
      omega
    have hnil : (db.filter fun r => decide (r.timestamp < now - days * 86400)) = [] :=
      List.eq_nil_of_length_eq_zero h0
    have hall : (db.filter fun r => decide (now - days * 86400 ≤ r.timestamp)) = db := by
      rw [List.filter_eq_self]
      intro a ha
      have := List.filter_eq_nil_iff.mp hnil a ha
      simp only [decide_eq_true_eq] at this ⊢
      omega
    simp only [cleanupOldData, Bool.false_eq_true, if_false, hall, h0,
      gt_iff_lt, lt_self_iff_false]

/-- C1: for every reachable store state and every positive `days`, the
manual purge `cleanup_old_data(days)` removes exactly the records with
`timestamp < now - days`, keeps every record with
`timestamp ≥ now - days`, and returns the number of records deleted. -/
theorem C1_cleanup_purge (now days : Int) (db : List Record) (h : 0 < days) :
    cleanupOldData false now (Except.ok db) days =
      (Except.ok (db.filter fun r => decide (now - days * 86400 ≤ r.timestamp)),
       (db.filter fun r => decide (r.timestamp < now - days * 86400)).length) :=
  cleanupOldData_ok_eq now days db

/-- C1 witness: the spec's concrete case — records at `now-10d`, `now-6d`,
`now-1h`, purge with a 7-day window. -/
theorem C1_cleanup_purge_witness :
    cleanupOldData false 0 (Except.ok purgeDb) 7 =
      (Except.ok (purgeDb.filter fun r => decide (0 - 7 * 86400 ≤ r.timestamp)),
       (purgeDb.filter fun r => decide (r.timestamp < 0 - 7 * 86400)).length) :=
  C1_cleanup_purge 0 7 purgeDb (by decide)

/-- C6 counterexample: a zero-day window passed to the manual purge is not
rejected — the call succeeds, deletes the one-day-old record and returns
a deleted count of 1, instead of failing fast with no deletion. -/
theorem C6_counterexample :
    cleanupOldData false 0 (Except.ok [oneDayOldRec]) 0 = (Except.ok [], 1) := rfl

/-- C6 (amended): neither the manual purge nor the retention install
validates the window.  For every `days ≤ 0` the purge still computes
`cutoff = now - days` (a cutoff at or after `now`) and deletes every
record strictly older than it, returning the deleted count; no
validation error is raised. -/
theorem C6_no_validation (now days : Int) (db : List Record) (h : days ≤ 0) :
    cleanupOldData false now (Except.ok db) days =
      (Except.ok (db.filter fun r => decide (now - days * 86400 ≤ r.timestamp)),
       (db.filter fun r => decide (r.timestamp < now - days * 86400)).length) :=
  cleanupOldData_ok_eq now days db

/-- C6 witness: with `days = -1` the one-day-old record is swept away. -/
theorem C6_no_validation_witness :
    cleanupOldData false 0 (Except.ok [oneDayOldRec]) (-1) =
      (Except.ok ([oneDayOldRec].filter fun r => decide (0 - -1 * 86400 ≤ r.timestamp)),
       ([oneDayOldRec].filter fun r => decide (r.timestamp < 0 - -1 * 86400)).length) :=
  C6_no_validation 0 (-1) [oneDayOldRec] (by decide)

/-- C7: when the store call raises (unreachable backend or an exception
during the operation), the retention sweep returns a deleted count of
zero and the introspection query returns zero records and no oldest
timestamp; both are total functions, so no exception propagates. -/
theorem C7_failure_defaults (now days : Int) (e : String) :
    cleanupOldData false now (Except.error e) days = (Except.error e, 0) ∧
    getDataStats false (Except.error e) = (0, none) :=
  ⟨rfl, rfl⟩

/-- C9: the inter-tick pause of the continuous ingestion loop equals
`max(0, 1 - elapsed)`: it is never negative, a batch that takes at least
the 1-second tick makes the next tick start immediately (zero pause), and
a faster batch sleeps exactly the remainder. -/
theorem C9_tick_pause (e : ℚ) (h : 0 ≤ e) :
    tickPause e = max 0 (1 - e) ∧ 0 ≤ tickPause e ∧
      (1 ≤ e → tickPause e = 0) ∧ (e ≤ 1 → tickPause e = 1 - e) := by
  refine ⟨rfl, le_max_left 0 _, fun h1 => ?_, fun h1 => ?_⟩
  · exact max_eq_left (by linarith)
  · exact max_eq_right (by linarith)

/-- C9 witness: a 2-second batch round trip yields a zero pause. -/
theorem C9_tick_pause_witness : 0 ≤ tickPause 2 ∧ tickPause 2 = 0 :=
  ⟨(C9_tick_pause 2 (by norm_num)).2.1,
   (C9_tick_pause 2 (by norm_num)).2.2.1 (by norm_num)⟩

/-- C3: for every user id whose numeric suffix is `n`, with
`base = (n mod 40) + 60`, every value the generator can draw obeys the
per-metric range rule: `heart_rate ∈ [base, base+20]`,
`steps ∈ [max(0, base-40), base]`,
`calories_burned ∈ [max(1, base/15), base/8]` and
`active_minutes ∈ [max(1, base/30), base/20]` (integer division, as in
the code).  `r` ranges over all random draws. -/
theorem C3_range_rule (uid seg : String) (n r : Nat)
    (h1 : (pySplit uid '-').get? 1 = some seg)
    (h2 : pyParseInt seg = some n) :
    (∃ v, generateRealisticValue uid "heart_rate" r = Except.ok v ∧
      n % 40 + 60 ≤ v ∧ v ≤ n % 40 + 60 + 20) ∧
    (∃ v, generateRealisticValue uid "steps" r = Except.ok v ∧
      max 0 (n % 40 + 60 - 40) ≤ v ∧ v ≤ n % 40 + 60) ∧
    (∃ v, generateRealisticValue uid "calories_burned" r = Except.ok v ∧
      max 1 ((n % 40 + 60) / 15) ≤ v ∧ v ≤ (n % 40 + 60) / 8) ∧
    (∃ v, generateRealisticValue uid "active_minutes" r = Except.ok v ∧
      max 1 ((n % 40 + 60) / 30) ≤ v ∧ v ≤ (n % 40 + 60) / 20) := by
  refine ⟨⟨randint (n % 40 + 60) (n % 40 + 60 + 20) r, ?_, ?_⟩,
    ⟨randint (max 0 (n % 40 + 60 - 40)) (n % 40 + 60) r, ?_, ?_⟩,
    ⟨randint (max 1 ((n % 40 + 60) / 15)) ((n % 40 + 60) / 8) r, ?_, ?_⟩,
    ⟨randint (max 1 ((n % 40 + 60) / 30)) ((n % 40 + 60) / 20) r, ?_, ?_⟩⟩
  · simp only [generateRealisticValue, h1, h2]; rfl
  · exact randint_bounds _ _ r (by omega)
  · simp only [generateRealisticValue, h1, h2]; rfl
  · exact randint_bounds _ _ r (by omega)
  · simp only [generateRealisticValue, h1, h2]; rfl
  · refine randint_bounds _ _ r ?_
    have : (n % 40 + 60) / 15 ≤ (n % 40 + 60) / 8 :=
      Nat.div_le_div_left (by omega) (by omega)
    omega
  · simp only [generateRealisticValue, h1, h2]; rfl
  · refine randint_bounds _ _ r ?_
    have : (n % 40 + 60) / 30 ≤ (n % 40 + 60) / 20 :=
      Nat.div_le_div_left (by omega) (by omega)
    omega

/-- C3 witness: user `user-0001`, numeric suffix 1, base 61. -/
theorem C3_range_rule_witness :
    (∃ v, generateRealisticValue "user-0001" "heart_rate" 7 = Except.ok v ∧
      1 % 40 + 60 ≤ v ∧ v ≤ 1 % 40 + 60 + 20) ∧
    (∃ v, generateRealisticValue "user-0001" "steps" 7 = Except.ok v ∧
      max 0 (1 % 40 + 60 - 40) ≤ v ∧ v ≤ 1 % 40 + 60) ∧
    (∃ v, generateRealisticValue "user-0001" "calories_burned" 7 = Except.ok v ∧
      max 1 ((1 % 40 + 60) / 15) ≤ v ∧ v ≤ (1 % 40 + 60) / 8) ∧
    (∃ v, generateRealisticValue "user-0001" "active_minutes" 7 = Except.ok v ∧
      max 1 ((1 % 40 + 60) / 30) ≤ v ∧ v ≤ (1 % 40 + 60) / 20) :=
  C3_range_rule "user-0001" "0001" 1 7 (by decide) (by decide)

/-- Helper for `pySplit_no_sep`: every piece produced by `splitCharAux`
is free of the separator, provided the accumulator is. -/
lemma splitCharAux_no_sep (sep : Char) (l : List Char) :
    ∀ acc : List Char, sep ∉ acc →
      ∀ p ∈ splitCharAux sep l acc, sep ∉ p.toList := by
  induction l with
  | nil =>
    intro acc hacc p hp
    simp only [splitCharAux, List.mem_singleton] at hp
    subst hp
    intro hc
    exact hacc (List.mem_reverse.mp hc)
  | cons c cs ih =>
    intro acc hacc p hp
    simp only [splitCharAux] at hp
    by_cases hc : c = sep
    · rw [if_pos hc] at hp
      rcases List.mem_cons.mp hp with he | he
      · subst he
        intro hm
        exact hacc (List.mem_reverse.mp hm)
      · exact ih [] (List.not_mem_nil sep) p he
    · rw [if_neg hc] at hp
      refine ih (c :: acc) ?_ p hp
      intro hm
      rcases List.mem_cons.mp hm with he | he
      · exact hc he.symm
      · exact hacc he

/-- No piece of a Python split contains the separator, so the segment
`user_id.split('-')[1]` never contains a minus sign and `pyParseInt`
needs no negative-number path. -/
lemma pySplit_no_sep (s : String) (sep : Char) :
    ∀ p ∈ pySplit s sep, sep ∉ p.toList :=
  splitCharAux_no_sep sep s.toList [] (List.not_mem_nil sep)

/-- C10 counterexample: a segment that is not a decimal integer need not
make the generator raise — Python's `int()` also accepts signed and
underscore-grouped numerals, so `user-+5` (suffix 5, base 65) and
`user-1_0` (suffix 10, base 70) each produce a drawn value. -/
theorem C10_counterexample :
    generateRealisticValue "user-+5" "heart_rate" 0 = Except.ok 65 ∧
    generateRealisticValue "user-1_0" "heart_rate" 0 = Except.ok 70 :=
  ⟨rfl, rfl⟩

/-- C10 (amended): with a suffix `int()` accepts, a metric type outside
the enumeration yields the value 0 rather than an error; an ASCII segment
after the first dash that `int()` rejects — where rejection means failing
the full `int()` grammar of optional whitespace, optional sign, and
underscore-grouped digits, not merely "not a decimal integer" — makes the
generator raise `ValueError` before any value is produced. -/
theorem C10_domain (uid seg mt : String) (r : Nat) :
    (∀ n, (pySplit uid '-').get? 1 = some seg → pyParseInt seg = some n →
      mt ∉ metricTypes → generateRealisticValue uid mt r = Except.ok 0) ∧
    ((pySplit uid '-').get? 1 = some seg →
      seg.toList.all (fun c => decide (c.toNat < 128)) = true →
      pyParseInt seg = none →
      generateRealisticValue uid mt r = Except.error "ValueError") := by
  constructor
  · intro n h1 h2 hmt
    simp only [metricTypes, List.mem_cons, List.not_mem_nil, or_false,
      not_or] at hmt
    obtain ⟨m1, m2, m3, m4⟩ := hmt
    simp only [generateRealisticValue, h1, h2, if_neg m1, if_neg m2,
      if_neg m3, if_neg m4]
  · intro h1 hascii h2
    simp only [generateRealisticValue, h1, h2]

/-- C10 witness: a metric outside the enumeration yields 0; an ASCII
suffix `int()` rejects raises. -/
theorem C10_domain_witness :
    generateRealisticValue "user-0001" "sleep_quality" 7 = Except.ok 0 ∧
    generateRealisticValue "user-abcd" "heart_rate" 7 =
      Except.error "ValueError" :=
  ⟨(C10_domain "user-0001" "0001" "sleep_quality" 7).1 1 (by decide)
      (by decide) (by decide),
   (C10_domain "user-abcd" "abcd" "heart_rate" 7).2 (by decide) (by decide)
      (by decide)⟩

/-- C4: in demo mode, when the store call raises, or when the store holds
no record for the requested user, the per-user real-time query returns
the demo supplier's synthesized output — a sequence of exactly 20
records, never an empty result and never a propagated error. -/
theorem C4_fallback (uid : String) (t : Int) (g : Nat → Nat → Nat)
    (e : String) (db : List Record) :
    getUserRealTimeMetrics true uid t g (Except.ok db) =
      generateUserDemoMetrics uid t g ∧
    getUserRealTimeMetrics false uid t g (Except.error e) =
      generateUserDemoMetrics uid t g ∧
    (db.filter (fun r => decide (r.user_id = uid)) = [] →
      getUserRealTimeMetrics false uid t g (Except.ok db) =
        generateUserDemoMetrics uid t g) ∧
    (generateUserDemoMetrics uid t g).length = 20 := by
  refine ⟨rfl, rfl, fun hf => ?_, ?_⟩
  · simp [getUserRealTimeMetrics, queryRecentForUser, hf]
  · simp [generateUserDemoMetrics]

/-- C4 witness: an unreachable store and an empty store both yield the
20-record synthesized sequence. -/
theorem C4_fallback_witness :
    getUserRealTimeMetrics true "user-0001" 0 (fun _ _ => 0) (Except.ok []) =
      generateUserDemoMetrics "user-0001" 0 (fun _ _ => 0) ∧
    getUserRealTimeMetrics false "user-0001" 0 (fun _ _ => 0)
        (Except.error "boom") =
      generateUserDemoMetrics "user-0001" 0 (fun _ _ => 0) ∧
    getUserRealTimeMetrics false "user-0001" 0 (fun _ _ => 0) (Except.ok []) =
      generateUserDemoMetrics "user-0001" 0 (fun _ _ => 0) ∧
    (generateUserDemoMetrics "user-0001" 0 (fun _ _ => 0)).length = 20 := by
  obtain ⟨a, b, c, d⟩ :=
    C4_fallback "user-0001" 0 (fun _ _ => 0) "boom" []
  exact ⟨a, b, c (by decide), d⟩

/-- C8: installing the 7-day retention rule is idempotent — running the
install twice leaves the same store state as running it once, and a
repeated index creation with the same window succeeds without change. -/
theorem C8_retention_idempotent (s : MongoState) :
    setupDataRetention false (setupDataRetention false s) =
      setupDataRetention false s ∧
    ∀ s1, createTTLIndex s (7 * 24 * 60 * 60) = Except.ok s1 →
      createTTLIndex s1 (7 * 24 * 60 * 60) = Except.ok s1 := by
  constructor
  · cases hs : s.ttl with
    | none => simp [setupDataRetention, createTTLIndex, hs]
    | some w =>
      by_cases hw : w = 7 * 24 * 60 * 60 <;>
        simp [setupDataRetention, createTTLIndex, hs, hw]
  · intro s1 h1
    cases hs : s.ttl with
    | none =>
      simp only [createTTLIndex, hs] at h1
      cases h1
      simp [createTTLIndex]
    | some w =>
      simp only [createTTLIndex, hs] at h1
      by_cases hw : w = 7 * 24 * 60 * 60
      · rw [if_pos hw] at h1
        cases h1
        simp [createTTLIndex, hs, hw]
      · rw [if_neg hw] at h1
        cases h1

/-- C8 witness: on a store with no TTL index, the first install sets the
7-day rule and the second is a successful no-op. -/
theorem C8_retention_idempotent_witness :
    setupDataRetention false (setupDataRetention false ⟨none, []⟩) =
      setupDataRetention false ⟨none, []⟩ ∧
    createTTLIndex ⟨some 604800, []⟩ (7 * 24 * 60 * 60) =
      Except.ok ⟨some 604800, []⟩ :=
  ⟨(C8_retention_idempotent ⟨none, []⟩).1,
   (C8_retention_idempotent ⟨none, []⟩).2 ⟨some 604800, []⟩ (by rfl)⟩

/-- The fetched per-user frame is sorted by timestamp descending. -/
lemma queryRecentForUser_pairwise (db : List Record) (uid : String) :
    (queryRecentForUser db uid).Pairwise tsDesc := by
  have hs := List.sorted_insertionSort tsDesc
    (db.filter fun r => decide (r.user_id = uid))
  exact List.Pairwise.take hs

/-- C2: over the records the query layer fetches for user `uid`, if at
least one has metric type `m` (one of the four types), the latest-per-type
query returns for `m` the value and timestamp of a fetched record of type
`m` whose timestamp is maximal among the fetched records of that type;
if none has type `m`, the result omits `m` (returns nothing) rather than
failing. -/
theorem C2_latest_by_type (db : List Record) (uid m : String)
    (hm : m ∈ metricTypes) :
    (((queryRecentForUser db uid).filter fun r => decide (r.metric_type = m)) ≠ [] →
      ∃ r0, r0 ∈ queryRecentForUser db uid ∧ r0.metric_type = m ∧
        getLatestUserMetrics (queryRecentForUser db uid) m =
          some (r0.value, r0.timestamp) ∧
        ∀ r ∈ queryRecentForUser db uid, r.metric_type = m →
          r.timestamp ≤ r0.timestamp) ∧
    (((queryRecentForUser db uid).filter fun r => decide (r.metric_type = m)) = [] →
      getLatestUserMetrics (queryRecentForUser db uid) m = none) := by
  set L := queryRecentForUser db uid with hL
  have hsorted : L.Pairwise tsDesc := queryRecentForUser_pairwise db uid
  constructor
  · intro hne
    obtain ⟨r0, rest, hfl⟩ :
        ∃ a l2, L.filter (fun r => decide (r.metric_type = m)) = a :: l2 := by
      cases hcase : L.filter (fun r => decide (r.metric_type = m)) with
      | nil => exact absurd hcase hne
      | cons a l2 => exact ⟨a, l2, rfl⟩
    have hr0f : r0 ∈ L.filter (fun r => decide (r.metric_type = m)) := by
      rw [hfl]; exact List.mem_cons_self r0 rest
    have hr0L : r0 ∈ L := (List.mem_filter.mp hr0f).1
    have hr0m : r0.metric_type = m :=
      of_decide_eq_true (List.mem_filter.mp hr0f).2
    refine ⟨r0, hr0L, hr0m, ?_, ?_⟩
    · have hLne : L ≠ [] := by
        intro hnil
        rw [hnil] at hfl
        simp at hfl
      have hLe : L.isEmpty = false := by
        simpa [List.isEmpty_eq_false] using hLne
      unfold getLatestUserMetrics
      rw [hLe]
      simp only [Bool.false_eq_true, if_false, if_pos hm, hfl, List.head?,
        Option.map_some']
    · intro r hr hrm
      have hrf : r ∈ L.filter (fun r => decide (r.metric_type = m)) :=
        List.mem_filter.mpr ⟨hr, decide_eq_true hrm⟩
      rw [hfl] at hrf
      rcases List.mem_cons.mp hrf with he | he
      · rw [he]
      · have hps : (L.filter (fun r => decide (r.metric_type = m))).Pairwise tsDesc :=
          hsorted.filter _
        rw [hfl] at hps
        exact (List.pairwise_cons.mp hps).1 r he
  · intro hnil
    unfold getLatestUserMetrics
    by_cases hLe : L.isEmpty
    · rw [if_pos hLe]
    · rw [if_neg hLe, if_pos hm, hnil]
      rfl

/-- C2 witness: `user-0001` has `heart_rate` records at timestamps
100 < 200 < 300 in `sampleDb`; the query returns a maximal-timestamp one. -/
theorem C2_latest_by_type_witness :
    ∃ r0, r0 ∈ queryRecentForUser sampleDb "user-0001" ∧
      r0.metric_type = "heart_rate" ∧
      getLatestUserMetrics (queryRecentForUser sampleDb "user-0001")
          "heart_rate" = some (r0.value, r0.timestamp) ∧
      ∀ r ∈ queryRecentForUser sampleDb "user-0001",
        r.metric_type = "heart_rate" → r.timestamp ≤ r0.timestamp :=
  (C2_latest_by_type sampleDb "user-0001" "heart_rate" (by decide)).1 (by decide)

/-- C5 counterexample: a result synthesized entirely by the fallback
supplier — the store is unreachable, so every returned record comes from
`generate_user_demo_metrics` — is displayed by the presentation layer
with status `"Live"` for `heart_rate`, not `"Simulated"`: no
`source = simulated` tag exists for the UI to read. -/
theorem C5_counterexample :
    metricStatus
      (getUserRealTimeMetrics false "user-0001" 0 (fun _ _ => 0)
        (Except.error "boom")) "heart_rate" = "Live" := by decide

/-- C5 (amended): records carry no `source` field.  Every fallback record
lacks even MongoDB's `_id` (the one incidental per-record difference from
store-fetched documents), and the UI's Live/Simulated label reads no tag:
over any result — live or synthesized — it says `"Live"` exactly when the
result holds a record of the metric type, so a synthesized result with
the type present is labeled `"Live"`. -/
theorem C5_no_source_tag (uid : String) (t : Int) (g : Nat → Nat → Nat)
    (m : String) (hm : m ∈ metricTypes) (df : List Record) :
    (∀ r ∈ generateUserDemoMetrics uid t g, r.mongoId = none) ∧
    (metricStatus df m = "Live" ↔
      (df.filter fun r => decide (r.metric_type = m)) ≠ []) := by
  constructor
  · intro r hr
    simp only [generateUserDemoMetrics, List.mem_map] at hr
    obtain ⟨i, _, he⟩ := hr
    rw [← he]
  · unfold metricStatus getLatestUserMetrics
    by_cases hdf : df.isEmpty
    · have hdf2 : df = [] := List.isEmpty_iff.mp hdf
      subst hdf2
      simp
    · rw [if_neg hdf, if_pos hm]
      cases hh : (df.filter fun r => decide (r.metric_type = m)) with
      | nil => simp [hh]
      | cons a l2 => simp [hh]

/-- C5 witness: the concrete fallback draw has no `_id` on any record and
its `heart_rate` entry is labeled `"Live"` by the presence test. -/
theorem C5_no_source_tag_witness :
    (∀ r ∈ generateUserDemoMetrics "user-0001" 0 (fun _ _ => 0),
      r.mongoId = none) ∧
    (metricStatus (generateUserDemoMetrics "user-0001" 0 (fun _ _ => 0))
        "heart_rate" = "Live" ↔
      ((generateUserDemoMetrics "user-0001" 0 (fun _ _ => 0)).filter
        fun r => decide (r.metric_type = "heart_rate")) ≠ []) :=
  C5_no_source_tag "user-0001" 0 (fun _ _ => 0) "heart_rate" (by decide)
    (generateUserDemoMetrics "user-0001" 0 (fun _ _ => 0))

end Vamos
